import Mathlib

/-!
Shallow embedding of the playback controller in `src/app/index.tsx`
(himal-13/sound-play).

The controller is the React component `App`.  Its mutable state is the set
of `useState` hooks; React `setX` calls are modelled as record updates and
each handler is a function from the current state to the next state
together with the list of engine commands it issues (calls on the
`expo-av` `Audio.Sound` object / `Audio.Sound.createAsync`).

Asynchronous engine results are made explicit parameters: `ok : Bool` is
whether `Audio.Sound.createAsync` succeeds, and each successfully created
`Audio.Sound` object is named by a fresh natural number drawn from the
`nextSession` supply (a modelling device: it only names the distinct
`Sound` objects so that commands and status events can refer to them; the
source code itself holds a single `playbackInstance` reference and has no
numbering).

Track positions and durations are milliseconds, modelled as `Nat`; track
indices are JS numbers that take the value `-1`, modelled as `Int`.
-/

namespace SoundPlay

/-- A status event delivered by the engine to `onPlaybackStatusUpdate`
(`AVPlaybackStatus` of expo-av).  `sessionId` names the `Audio.Sound`
object whose subscription delivered the event; the source handler receives
only the status record and cannot observe it. -/
structure AVPlaybackStatus where
  sessionId : Nat
  isLoaded : Bool
  hasError : Bool
  positionMillis : Nat
  durationMillis : Option Nat
  isPlaying : Bool
  didJustFinish : Bool
  deriving DecidableEq, Repr

/-- The `useState` hooks of the `App` component that the playback
controller reads and writes.  `playbackInstance` holds the name of the
live `Audio.Sound`, or `none`.  `errorsLogged` counts `console.error`
calls (how errors are "reported").  `nextSession` is the fresh-name supply
for `Audio.Sound` objects (modelling device, see module comment). -/
structure AppState where
  playbackInstance : Option Nat
  isPlaying : Bool
  currentTrackIndex : Int
  position : Nat
  duration : Nat
  isSeeking : Bool
  nextSession : Nat
  errorsLogged : Nat
  deriving DecidableEq, Repr

/-- Commands the controller issues to the playback engine (`expo-av`).
`load index autoplay` is `Audio.Sound.createAsync({uri}, {shouldPlay})`
for the track at `index`; the rest are methods of the `Audio.Sound`
object of the session. -/
inductive EngineCmd where
  | unload (sid : Nat)
  | load (index : Int) (autoplay : Bool)
  | play (sid : Nat)
  | pause (sid : Nat)
  | playFrom (sid : Nat) (value : Nat)
  | seekTo (sid : Nat) (value : Nat)
  deriving DecidableEq, Repr

/-- The initial hook values: lines 25-30 of `src/app/index.tsx`. -/
def init : AppState :=
  { playbackInstance := none
    isPlaying := false
    currentTrackIndex := -1
    position := 0
    duration := 0
    isSeeking := false
    nextSession := 0
    errorsLogged := 0 }

/-- `playAudio(index)` (lines 95-114).  `len` is `audioAssets.length`.
Unloads the previous instance if any, then calls `createAsync` with
`shouldPlay: true`.  On success the new sound is stored, the index is
recorded and `isPlaying` is set optimistically.  An out-of-range `index`
makes `audioAssets[index]` undefined so `asset.uri` throws before the
engine is contacted; that throw and a failed `createAsync` both land in
the same `catch`, which only logs the error. -/
def playAudio (len : Nat) (s : AppState) (index : Int) (ok : Bool) :
    AppState × List EngineCmd :=
  let su :=
    match s.playbackInstance with
    | some old => ({ s with playbackInstance := none }, [EngineCmd.unload old])
    | none => (s, ([] : List EngineCmd))
  if 0 ≤ index ∧ index < (len : Int) ∧ ok = true then
    ({ su.1 with
        playbackInstance := some su.1.nextSession
        currentTrackIndex := index
        isPlaying := true
        nextSession := su.1.nextSession + 1 },
      su.2 ++ [EngineCmd.load index true])
  else
    ({ su.1 with errorsLogged := su.1.errorsLogged + 1 }, su.2)

/-- `handlePlayPause()` (lines 117-125): pause if playing, else play; no
state hook is written. -/
def handlePlayPause (s : AppState) : AppState × List EngineCmd :=
  match s.playbackInstance with
  | some sid =>
      if s.isPlaying then (s, [EngineCmd.pause sid]) else (s, [EngineCmd.play sid])
  | none => (s, [])

/-- The index computation of `handleNext` (lines 130-133):
`nextIndex = currentTrackIndex + 1`, reset to `0` when
`nextIndex >= audioAssets.length`. -/
def nextIdx (len : Nat) (c : Int) : Int :=
  if c + 1 ≥ (len : Int) then 0 else c + 1

/-- The index computation of `handlePrevious` (lines 140-143):
`prevIndex = currentTrackIndex - 1`, reset to `audioAssets.length - 1`
when `prevIndex < 0`. -/
def prevIdx (len : Nat) (c : Int) : Int :=
  if c - 1 < 0 then (len : Int) - 1 else c - 1

/-- `handleNext()` (lines 128-135): no-op on an empty list, else
`playAudio(nextIndex)`. -/
def handleNext (len : Nat) (s : AppState) (ok : Bool) : AppState × List EngineCmd :=
  if len = 0 then (s, [])
  else playAudio len s (nextIdx len s.currentTrackIndex) ok

/-- `handlePrevious()` (lines 138-145): no-op on an empty list, else
`playAudio(prevIndex)`. -/
def handlePrevious (len : Nat) (s : AppState) (ok : Bool) : AppState × List EngineCmd :=
  if len = 0 then (s, [])
  else playAudio len s (prevIdx len s.currentTrackIndex) ok

/-- `handleSliderValueChange(value)` (lines 148-151): sets `isSeeking`
and overrides the displayed position; the engine is not contacted. -/
def handleSliderValueChange (s : AppState) (value : Nat) :
    AppState × List EngineCmd :=
  ({ s with isSeeking := true, position := value }, [])

/-- `handleSlidingComplete(value)` (lines 154-163): with a session, issue
`playFromPositionAsync(value)` when playing and `setPositionAsync(value)`
when paused; then clear `isSeeking` in every case. -/
def handleSlidingComplete (s : AppState) (value : Nat) :
    AppState × List EngineCmd :=
  let cmds :=
    match s.playbackInstance with
    | some sid =>
        if s.isPlaying then [EngineCmd.playFrom sid value]
        else [EngineCmd.seekTo sid value]
    | none => ([] : List EngineCmd)
  ({ s with isSeeking := false }, cmds)

/-- `onPlaybackStatusUpdate(status)` (lines 76-92).  A not-loaded status
only logs the error, if any.  A loaded status updates `position` and
`duration` (`durationMillis ?? 0`) unless seeking, always updates
`isPlaying`, and on `didJustFinish` invokes `handleNext` (whose
`createAsync` outcome is the `ok` parameter). -/
def onPlaybackStatusUpdate (len : Nat) (s : AppState) (ev : AVPlaybackStatus)
    (ok : Bool) : AppState × List EngineCmd :=
  if ev.isLoaded = false then
    if ev.hasError then ({ s with errorsLogged := s.errorsLogged + 1 }, [])
    else (s, [])
  else
    let s1 :=
      if s.isSeeking then s
      else { s with position := ev.positionMillis
                    duration := ev.durationMillis.getD 0 }
    let s2 := { s1 with isPlaying := ev.isPlaying }
    if ev.didJustFinish then handleNext len s2 ok else (s2, [])

/-- A drag on the slider: `handleSliderValueChange` once per value, with
the issued engine commands accumulated. -/
def dragSeq (s : AppState) (vs : List Nat) : AppState × List EngineCmd :=
  vs.foldl
    (fun acc v =>
      let r := handleSliderValueChange acc.1 v
      (r.1, acc.2 ++ r.2))
    (s, [])

/-- The controller operations a user action or engine event can trigger.
The `ok` arguments carry the outcome of the `createAsync` the operation
performs, when it performs one. -/
inductive Op where
  | selectTrack (index : Int) (ok : Bool)
  | togglePlayPause
  | next (ok : Bool)
  | previous (ok : Bool)
  | beginSeek (v : Nat)
  | commitSeek (v : Nat)
  | engineStatus (ev : AVPlaybackStatus) (ok : Bool)
  deriving DecidableEq, Repr

/-- One controller operation as a step of the state machine. -/
def step (len : Nat) (s : AppState) : Op → AppState × List EngineCmd
  | Op.selectTrack index ok => playAudio len s index ok
  | Op.togglePlayPause => handlePlayPause s
  | Op.next ok => handleNext len s ok
  | Op.previous ok => handlePrevious len s ok
  | Op.beginSeek v => handleSliderValueChange s v
  | Op.commitSeek v => handleSlidingComplete s v
  | Op.engineStatus ev ok => onPlaybackStatusUpdate len s ev ok

/-- Run a sequence of operations from a state, accumulating commands. -/
def runOps (len : Nat) (s : AppState) (ops : List Op) :
    AppState × List EngineCmd :=
  ops.foldl
    (fun acc op =>
      let r := step len acc.1 op
      (r.1, acc.2 ++ r.2))
    (s, [])

/-- The three-way invariant claimed in spec section 3:
`currentIndex == -1` iff no session exists iff `isPlaying == false`. -/
abbrev threeWayInv (s : AppState) : Prop :=
  (s.currentTrackIndex = -1 ↔ s.playbackInstance = none) ∧
  (s.playbackInstance = none ↔ s.isPlaying = false)

/-- The part of the invariant the code does maintain: a live session
implies `currentTrackIndex` is a valid track index. -/
abbrev sessionIndexInv (len : Nat) (s : AppState) : Prop :=
  s.playbackInstance ≠ none →
    0 ≤ s.currentTrackIndex ∧ s.currentTrackIndex < (len : Int)

/-- The state reached by one successful `handleNext` (for iterating the
next-track operation). -/
def stepNextState (len : Nat) (s : AppState) : AppState :=
  (handleNext len s true).1

/-! Helper lemmas -/

/-- On the success branch of `playAudio` the new sound is stored, the
index recorded and `isPlaying` set optimistically. -/
theorem playAudio_ok (len : Nat) (s : AppState) (index : Int) (ok : Bool)
    (hc : 0 ≤ index ∧ index < (len : Int) ∧ ok = true) :
    (playAudio len s index ok).1 =
      { s with playbackInstance := some s.nextSession
               currentTrackIndex := index
               isPlaying := true
               nextSession := s.nextSession + 1 } := by
  unfold playAudio
  cases hi : s.playbackInstance <;> simp [hi, hc]

/-- On the catch branch of `playAudio` (failed `createAsync` or an
out-of-range index) the previous instance was already unloaded and
cleared, the error is logged, and no other hook is written. -/
theorem playAudio_err (len : Nat) (s : AppState) (index : Int) (ok : Bool)
    (h : ¬ (0 ≤ index ∧ index < (len : Int) ∧ ok = true)) :
    (playAudio len s index ok).1 =
      { s with playbackInstance := none, errorsLogged := s.errorsLogged + 1 } := by
  unfold playAudio
  cases hi : s.playbackInstance <;> simp [hi, h]

/-- `playAudio` only creates a session together with an in-range
`currentTrackIndex`. -/
theorem playAudio_sessionIndexInv (len : Nat) (s : AppState) (index : Int)
    (ok : Bool) :
    sessionIndexInv len (playAudio len s index ok).1 := by
  by_cases hc : 0 ≤ index ∧ index < (len : Int) ∧ ok = true
  · rw [playAudio_ok len s index ok hc]
    intro hne
    exact ⟨hc.1, hc.2.1⟩
  · rw [playAudio_err len s index ok hc]
    intro hne
    simp at hne

/-- `handleNext` preserves the session-index invariant. -/
theorem handleNext_sessionIndexInv (len : Nat) (s : AppState) (ok : Bool)
    (h : sessionIndexInv len s) :
    sessionIndexInv len (handleNext len s ok).1 := by
  unfold handleNext
  split
  · exact h
  · exact playAudio_sessionIndexInv len s _ ok

/-- A non-empty drag sets `isSeeking`, displays the last dragged value,
and issues no engine command. -/
theorem dragSeq_cons : ∀ (vs : List Nat) (s : AppState) (v0 : Nat),
    dragSeq s (v0 :: vs) =
      ({ s with isSeeking := true, position := vs.getLastD v0 }, []) := by
  intro vs
  induction vs with
  | nil => intro s v0; rfl
  | cons v1 vs ih =>
      intro s v0
      have h1 : dragSeq s (v0 :: v1 :: vs) =
          dragSeq { s with isSeeking := true, position := v0 } (v1 :: vs) := rfl
      rw [h1, ih, List.getLastD_cons]

/-- The next-track index stays within `[0, len)`. -/
theorem nextIdx_bounds (len : Nat) (c : Int) (h0 : 0 < len) (h1 : 0 ≤ c)
    (h2 : c < (len : Int)) :
    0 ≤ nextIdx len c ∧ nextIdx len c < (len : Int) := by
  unfold nextIdx
  split <;> omega

/-- Iterating the next-track index computation from a valid index is
addition modulo the track count. -/
theorem nextIdx_iterate (len : Nat) (h0 : 0 < len) :
    ∀ (k : Nat) (c : Int), 0 ≤ c → c < (len : Int) →
      (nextIdx len)^[k] c = (c + (k : Int)) % (len : Int) := by
  intro k
  induction k with
  | zero =>
      intro c h1 h2
      simp [Int.emod_eq_of_lt h1 h2]
  | succ k ih =>
      intro c h1 h2
      rw [Function.iterate_succ_apply]
      obtain ⟨hb1, hb2⟩ := nextIdx_bounds len c h0 h1 h2
      rw [ih (nextIdx len c) hb1 hb2]
      unfold nextIdx
      split
      · have hlc : c + 1 = (len : Int) := by omega
        have hr : c + ((k : Int) + 1) = (k : Int) + (len : Int) * 1 := by omega
        push_cast
        rw [hr, Int.add_mul_emod_self_left]
        simp
      · push_cast
        ring_nf

/-- With a valid current index, a successful `handleNext` moves
`currentTrackIndex` to `nextIdx` and keeps it valid. -/
theorem stepNextState_currentTrackIndex (len : Nat) (s : AppState)
    (h0 : 0 < len) (h1 : 0 ≤ s.currentTrackIndex)
    (h2 : s.currentTrackIndex < (len : Int)) :
    (stepNextState len s).currentTrackIndex = nextIdx len s.currentTrackIndex := by
  obtain ⟨hb1, hb2⟩ := nextIdx_bounds len s.currentTrackIndex h0 h1 h2
  unfold stepNextState handleNext
  rw [if_neg (by omega)]
  rw [playAudio_ok len s _ true ⟨hb1, hb2, rfl⟩]

/-- Iterating successful `handleNext` steps acts on `currentTrackIndex`
as iterating `nextIdx`. -/
theorem stepNextState_iterate (len : Nat) (h0 : 0 < len) :
    ∀ (k : Nat) (s : AppState), 0 ≤ s.currentTrackIndex →
      s.currentTrackIndex < (len : Int) →
      ((stepNextState len)^[k] s).currentTrackIndex =
        (nextIdx len)^[k] s.currentTrackIndex := by
  intro k
  induction k with
  | zero => intro s h1 h2; simp
  | succ k ih =>
      intro s h1 h2
      rw [Function.iterate_succ_apply, Function.iterate_succ_apply]
      obtain ⟨hb1, hb2⟩ := nextIdx_bounds len s.currentTrackIndex h0 h1 h2
      have hs := stepNextState_currentTrackIndex len s h0 h1 h2
      have := ih (stepNextState len s) (by rw [hs]; exact hb1) (by rw [hs]; exact hb2)
      rw [this, hs]

/-- On the success branch of `playAudio` a load command with autoplay is
among the issued engine commands. -/
theorem playAudio_ok_load_mem (len : Nat) (s : AppState) (index : Int)
    (ok : Bool) (hc : 0 ≤ index ∧ index < (len : Int) ∧ ok = true) :
    EngineCmd.load index true ∈ (playAudio len s index ok).2 := by
  unfold playAudio
  cases hi : s.playbackInstance <;> simp [hi, hc]

/-- `sessionIndexInv` only reads `playbackInstance` and
`currentTrackIndex`. -/
theorem sessionIndexInv_of_eq (len : Nat) {s t : AppState}
    (hpi : t.playbackInstance = s.playbackInstance)
    (hci : t.currentTrackIndex = s.currentTrackIndex)
    (h : sessionIndexInv len s) : sessionIndexInv len t := by
  intro hne
  rw [hpi] at hne
  rw [hci]
  exact h hne

/-- `handlePrevious` preserves the session-index invariant. -/
theorem handlePrevious_sessionIndexInv (len : Nat) (s : AppState) (ok : Bool)
    (h : sessionIndexInv len s) :
    sessionIndexInv len (handlePrevious len s ok).1 := by
  unfold handlePrevious
  split
  · exact h
  · exact playAudio_sessionIndexInv len s _ ok

/-- `onPlaybackStatusUpdate` preserves the session-index invariant. -/
theorem onStatus_sessionIndexInv (len : Nat) (s : AppState)
    (ev : AVPlaybackStatus) (ok : Bool) (h : sessionIndexInv len s) :
    sessionIndexInv len (onPlaybackStatusUpdate len s ev ok).1 := by
  unfold onPlaybackStatusUpdate
  split
  · split
    · exact sessionIndexInv_of_eq len rfl rfl h
    · exact h
  · dsimp only
    split
    · apply handleNext_sessionIndexInv
      refine sessionIndexInv_of_eq len ?_ ?_ h <;> (split <;> rfl)
    · refine sessionIndexInv_of_eq len ?_ ?_ h <;> (split <;> rfl)

/-- `handlePlayPause` writes no state hook. -/
theorem handlePlayPause_fst (s : AppState) : (handlePlayPause s).1 = s := by
  unfold handlePlayPause
  split
  · split <;> rfl
  · rfl

/-- `handleSlidingComplete` only clears `isSeeking`. -/
theorem handleSlidingComplete_fst (s : AppState) (value : Nat) :
    (handleSlidingComplete s value).1 = { s with isSeeking := false } :=
  rfl

/-! Claims -/

/-- C1 (counterexample): there is no generation guard.  After
`selectTrack(0)` then `selectTrack(1)` succeed, session 1 is active and
`isPlaying = true`; a delayed status event originating from the
superseded session 0 (`sessionId := 0`, reporting paused at position 999)
is still applied by `onPlaybackStatusUpdate` and mutates `TransportState`:
`isPlaying` flips to `false` and `position` becomes 999. -/
theorem c1_stale_event_mutates_counterexample :
    ((runOps 2 init [Op.selectTrack 0 true, Op.selectTrack 1 true]).1.playbackInstance
        = some 1) ∧
    ((runOps 2 init [Op.selectTrack 0 true, Op.selectTrack 1 true]).1.isPlaying
        = true) ∧
    ((onPlaybackStatusUpdate 2
        (runOps 2 init [Op.selectTrack 0 true, Op.selectTrack 1 true]).1
        { sessionId := 0, isLoaded := true, hasError := false,
          positionMillis := 999, durationMillis := some 5000,
          isPlaying := false, didJustFinish := false } true).1.isPlaying
        = false) ∧
    ((onPlaybackStatusUpdate 2
        (runOps 2 init [Op.selectTrack 0 true, Op.selectTrack 1 true]).1
        { sessionId := 0, isLoaded := true, hasError := false,
          positionMillis := 999, durationMillis := some 5000,
          isPlaying := false, didJustFinish := false } true).1.position
        = 999) := by
  decide

/-- C1 (amended): `onPlaybackStatusUpdate` carries no generation check at
all — it treats every status event identically whatever session it
originated from, so a delayed event from a superseded session mutates
controller state exactly as an event from the active session would. -/
theorem c1_handler_ignores_event_origin (len : Nat) (s : AppState)
    (ev : AVPlaybackStatus) (ok : Bool) (g : Nat) :
    onPlaybackStatusUpdate len s { ev with sessionId := g } ok =
      onPlaybackStatusUpdate len s ev ok := by
  cases ev
  rfl

/-- C2 (counterexample): with track 0 selected, a failed
`selectTrack(1)` leaves `currentTrackIndex = 0` — the stale index — not
`-1` as the claim states. -/
theorem c2_no_revert_counterexample :
    ((runOps 2 init [Op.selectTrack 0 true, Op.selectTrack 1 false]).1.currentTrackIndex
        = 0) ∧
    ¬ ((runOps 2 init [Op.selectTrack 0 true, Op.selectTrack 1 false]).1.currentTrackIndex
        = -1) := by
  decide

/-- C2 (amended): when the engine load call inside `selectTrack(index)`
fails, the error is caught and reported (logged) and the previous session
has been unloaded (`playbackInstance = none`), but `currentTrackIndex`
retains its prior value for every index and every prior state — it is not
reverted to `-1`. -/
theorem c2_load_failure_keeps_stale_index (len : Nat) (s : AppState)
    (index : Int) :
    (playAudio len s index false).1.currentTrackIndex = s.currentTrackIndex ∧
    (playAudio len s index false).1.playbackInstance = none ∧
    (playAudio len s index false).1.errorsLogged = s.errorsLogged + 1 := by
  rw [playAudio_err len s index false (by simp)]
  exact ⟨rfl, rfl, rfl⟩

/-- C5 (counterexample): `previous` is not the inverse of `next` on every
index: with one track and the initial index `-1`,
`prevIdx 1 (nextIdx 1 (-1)) = 0 ≠ -1`. -/
theorem c5_not_inverse_at_minus_one_counterexample :
    prevIdx 1 (nextIdx 1 (-1)) = 0 ∧ ¬ prevIdx 1 (nextIdx 1 (-1)) = -1 := by
  decide

/-- C5 (amended): for every non-empty track list and every valid index
`0 ≤ i < len`, the index computation of `previous()` inverts that of
`next()`: `prevIdx len (nextIdx len i) = i`. -/
theorem c5_prev_inverts_next (len : Nat) (i : Int) (h0 : 0 < len)
    (h1 : 0 ≤ i) (h2 : i < (len : Int)) :
    prevIdx len (nextIdx len i) = i := by
  unfold nextIdx prevIdx
  split <;> split <;> omega

/-- C5 (witness): the amended inverse property at `len = 3`, `i = 2`. -/
theorem c5_prev_inverts_next_witness :
    prevIdx 3 (nextIdx 3 2) = 2 :=
  c5_prev_inverts_next 3 2 (by decide) (by decide) (by decide)

/-- C4 (counterexample): wrap-around closure fails for the starting
value `currentIndex = -1` (the initial state): with one track, a single
successful `next()` yields index 0, not the original `-1`. -/
theorem c4_wraparound_counterexample :
    init.currentTrackIndex = -1 ∧
    ¬ (((stepNextState 1)^[1] init).currentTrackIndex = init.currentTrackIndex) := by
  decide

/-- C4 (amended): for every non-empty track list and every starting
state whose `currentIndex` is a valid index `0 ≤ i < len`, applying a
successful `next()` exactly `len` times returns `currentIndex` to its
original value. -/
theorem c4_next_wraparound (len : Nat) (s : AppState) (h0 : 0 < len)
    (h1 : 0 ≤ s.currentTrackIndex) (h2 : s.currentTrackIndex < (len : Int)) :
    ((stepNextState len)^[len] s).currentTrackIndex = s.currentTrackIndex := by
  rw [stepNextState_iterate len h0 len s h1 h2,
      nextIdx_iterate len h0 len s.currentTrackIndex h1 h2]
  have hr : s.currentTrackIndex + ((len : Nat) : Int) =
      s.currentTrackIndex + (len : Int) * 1 := by ring
  rw [hr, Int.add_mul_emod_self_left, Int.emod_eq_of_lt h1 h2]

/-- C4 (witness): the amended wrap-around closure at `len = 2` from a
state with `currentIndex = 0`. -/
theorem c4_next_wraparound_witness :
    ((stepNextState 2)^[2] { init with currentTrackIndex := 0 }).currentTrackIndex =
      ({ init with currentTrackIndex := 0 } : AppState).currentTrackIndex :=
  c4_next_wraparound 2 { init with currentTrackIndex := 0 }
    (by decide) (by decide) (by decide)

/-- C3 (counterexample): the three-way invariant is not preserved.  Run
A: `selectTrack(0)` succeeds then `selectTrack(1)` fails — the reached
state has `currentTrackIndex = 0` with no session and `isPlaying = true`,
breaking `currentIndex == -1 ⇔ no session` and
`no session ⇔ isPlaying == false`.  Run B: `selectTrack(0)` succeeds then
a paused status event arrives — the reached state has a session with
`isPlaying = false`, breaking `no session ⇔ isPlaying == false`. -/
theorem c3_invariant_broken_counterexample :
    ¬ threeWayInv (runOps 2 init
        [Op.selectTrack 0 true, Op.selectTrack 1 false]).1 ∧
    ¬ threeWayInv (runOps 2 init
        [Op.selectTrack 0 true,
         Op.engineStatus
           { sessionId := 0, isLoaded := true, hasError := false,
             positionMillis := 100, durationMillis := some 1000,
             isPlaying := false, didJustFinish := false } true]).1 := by
  decide

/-- C3 (amended): the three-way invariant holds in the initial state, and
the part of it the code maintains on every path — including error
paths — is: whenever a PlaybackSession exists, `currentIndex` is a valid
track index (in particular not `-1`); the full three-way equivalence is
not preserved (a failed re-selection leaves a stale index with no
session, and a paused engine status leaves `isPlaying = false` with a
live session). -/
theorem c3_init_and_session_index_invariant (len : Nat) :
    threeWayInv init ∧ sessionIndexInv len init ∧
    ∀ (s : AppState) (op : Op), sessionIndexInv len s →
      sessionIndexInv len (step len s op).1 := by
  refine ⟨⟨by simp [init], by simp [init]⟩, fun hne => absurd rfl hne, ?_⟩
  intro s op h
  cases op with
  | selectTrack index ok => exact playAudio_sessionIndexInv len s index ok
  | togglePlayPause =>
      rw [show (step len s Op.togglePlayPause).1 = (handlePlayPause s).1 from rfl,
        handlePlayPause_fst]
      exact h
  | next ok => exact handleNext_sessionIndexInv len s ok h
  | previous ok => exact handlePrevious_sessionIndexInv len s ok h
  | beginSeek v => exact sessionIndexInv_of_eq len rfl rfl h
  | commitSeek v => exact sessionIndexInv_of_eq len rfl rfl h
  | engineStatus ev ok => exact onStatus_sessionIndexInv len s ev ok h

/-- C3 (witness): the amended invariant applied with two tracks, at the
initial state and one concrete step. -/
theorem c3_invariant_witness :
    threeWayInv init ∧ sessionIndexInv 2 init ∧
    sessionIndexInv 2 (step 2 init (Op.selectTrack 0 true)).1 :=
  ⟨(c3_init_and_session_index_invariant 2).1,
   (c3_init_and_session_index_invariant 2).2.1,
   (c3_init_and_session_index_invariant 2).2.2 init (Op.selectTrack 0 true)
     (by intro hne; simp [init] at hne)⟩

/-- C6: with an active session and `isPlaying = false`, `commitSeek(v)`
issues the pure seek command `setPositionAsync(v)` — not
`playFromPositionAsync` — and leaves `isPlaying` false (the whole state
change is clearing `isSeeking`); with no session it issues no engine
command and only clears `isSeeking`. -/
theorem c6_commitSeek_paused_and_sessionless (s : AppState) (v : Nat) :
    (∀ sid, s.playbackInstance = some sid → s.isPlaying = false →
      (handleSlidingComplete s v).2 = [EngineCmd.seekTo sid v] ∧
      (handleSlidingComplete s v).1.isPlaying = false ∧
      (handleSlidingComplete s v).1 = { s with isSeeking := false }) ∧
    (s.playbackInstance = none →
      (handleSlidingComplete s v).2 = [] ∧
      (handleSlidingComplete s v).1 = { s with isSeeking := false }) := by
  constructor
  · intro sid hs hp
    refine ⟨by simp [handleSlidingComplete, hs, hp], ?_,
      handleSlidingComplete_fst s v⟩
    rw [handleSlidingComplete_fst s v]
    exact hp
  · intro hn
    exact ⟨by simp [handleSlidingComplete, hn], handleSlidingComplete_fst s v⟩

/-- C6 (witness): a paused session seeks without playing, and the
sessionless commit only clears `isSeeking`. -/
theorem c6_commitSeek_witness :
    ((handleSlidingComplete { init with playbackInstance := some 0 } 5).2 =
        [EngineCmd.seekTo 0 5] ∧
      (handleSlidingComplete { init with playbackInstance := some 0 } 5).1.isPlaying
        = false ∧
      (handleSlidingComplete { init with playbackInstance := some 0 } 5).1 =
        { { init with playbackInstance := some 0 } with isSeeking := false }) ∧
    ((handleSlidingComplete init 7).2 = [] ∧
      (handleSlidingComplete init 7).1 = { init with isSeeking := false }) :=
  ⟨(c6_commitSeek_paused_and_sessionless
      { init with playbackInstance := some 0 } 5).1 0 rfl rfl,
   (c6_commitSeek_paused_and_sessionless init 7).2 rfl⟩

/-- C7: with a session, one `beginSeek` followed by any number of
intermediate `beginSeek` calls issues no engine command and leaves the
state with `isSeeking = true` and the last dragged value as displayed
position; the following `commitSeek(v)` then issues exactly one engine
seek/play-from command in total, with value `v`. -/
theorem c7_drag_commit_single_command (s : AppState) (sid : Nat) (v0 : Nat)
    (vs : List Nat) (v : Nat) (h : s.playbackInstance = some sid) :
    (dragSeq s (v0 :: vs)).2 = [] ∧
    (dragSeq s (v0 :: vs)).1 =
      { s with isSeeking := true, position := vs.getLastD v0 } ∧
    (dragSeq s (v0 :: vs)).2 ++
        (handleSlidingComplete (dragSeq s (v0 :: vs)).1 v).2 =
      [if s.isPlaying then EngineCmd.playFrom sid v
       else EngineCmd.seekTo sid v] := by
  have hd := dragSeq_cons vs s v0
  refine ⟨by rw [hd], by rw [hd], ?_⟩
  rw [hd]
  cases hp : s.isPlaying <;> simp [handleSlidingComplete, h, hp]

/-- C7 (witness): a three-value drag `[1, 2, 3]` then `commitSeek 9` on
a paused session: no command during the drag, displayed position 3, and
exactly the single command `setPositionAsync 9`. -/
theorem c7_drag_commit_witness :
    (dragSeq { init with playbackInstance := some 0 } (1 :: [2, 3])).2 = [] ∧
    (dragSeq { init with playbackInstance := some 0 } (1 :: [2, 3])).1 =
      { { init with playbackInstance := some 0 } with
          isSeeking := true, position := 3 } ∧
    (dragSeq { init with playbackInstance := some 0 } (1 :: [2, 3])).2 ++
        (handleSlidingComplete
          (dragSeq { init with playbackInstance := some 0 } (1 :: [2, 3])).1 9).2 =
      [EngineCmd.seekTo 0 9] :=
  c7_drag_commit_single_command { init with playbackInstance := some 0 }
    0 1 [2, 3] 9 rfl

/-- C8: a loaded status event that does not signal track completion
updates `position` and `duration` (an absent duration becoming 0) exactly
when the controller is not seeking, leaves them unchanged while seeking,
and updates `isPlaying` from the event in both cases. -/
theorem c8_status_fields_update (len : Nat) (s : AppState)
    (ev : AVPlaybackStatus) (ok : Bool) (hl : ev.isLoaded = true)
    (hf : ev.didJustFinish = false) :
    (s.isSeeking = false →
      (onPlaybackStatusUpdate len s ev ok).1.position = ev.positionMillis ∧
      (onPlaybackStatusUpdate len s ev ok).1.duration =
        ev.durationMillis.getD 0) ∧
    (s.isSeeking = true →
      (onPlaybackStatusUpdate len s ev ok).1.position = s.position ∧
      (onPlaybackStatusUpdate len s ev ok).1.duration = s.duration) ∧
    (onPlaybackStatusUpdate len s ev ok).1.isPlaying = ev.isPlaying := by
  refine ⟨fun hs => ?_, fun hs => ?_, ?_⟩
  · constructor <;> simp [onPlaybackStatusUpdate, hl, hf, hs]
  · constructor <;> simp [onPlaybackStatusUpdate, hl, hf, hs]
  · by_cases hs : s.isSeeking <;> simp [onPlaybackStatusUpdate, hl, hf, hs]

/-- C8 (witness): a loaded event with `positionMillis = 42`, no duration
yet, `isPlaying = true`, arriving while not seeking: position becomes 42,
the unknown duration becomes 0, `isPlaying` becomes true. -/
theorem c8_status_fields_witness :
    (init.isSeeking = false →
      (onPlaybackStatusUpdate 2 init
        { sessionId := 0, isLoaded := true, hasError := false,
          positionMillis := 42, durationMillis := none,
          isPlaying := true, didJustFinish := false } true).1.position = 42 ∧
      (onPlaybackStatusUpdate 2 init
        { sessionId := 0, isLoaded := true, hasError := false,
          positionMillis := 42, durationMillis := none,
          isPlaying := true, didJustFinish := false } true).1.duration = 0) ∧
    (init.isSeeking = true →
      (onPlaybackStatusUpdate 2 init
        { sessionId := 0, isLoaded := true, hasError := false,
          positionMillis := 42, durationMillis := none,
          isPlaying := true, didJustFinish := false } true).1.position =
          init.position ∧
      (onPlaybackStatusUpdate 2 init
        { sessionId := 0, isLoaded := true, hasError := false,
          positionMillis := 42, durationMillis := none,
          isPlaying := true, didJustFinish := false } true).1.duration =
          init.duration) ∧
    (onPlaybackStatusUpdate 2 init
      { sessionId := 0, isLoaded := true, hasError := false,
        positionMillis := 42, durationMillis := none,
        isPlaying := true, didJustFinish := false } true).1.isPlaying = true :=
  c8_status_fields_update 2 init
    { sessionId := 0, isLoaded := true, hasError := false,
      positionMillis := 42, durationMillis := none,
      isPlaying := true, didJustFinish := false } true rfl rfl

/-- C9: `togglePlayPause` never writes a state hook — in particular it
does not flip `isPlaying` itself — and its engine command is nothing
without a session, pause when playing, play when paused. -/
theorem c9_toggle_no_state_change (s : AppState) :
    (handlePlayPause s).1 = s ∧
    (handlePlayPause s).2 =
      (match s.playbackInstance with
        | none => []
        | some sid =>
            if s.isPlaying then [EngineCmd.pause sid]
            else [EngineCmd.play sid]) := by
  refine ⟨handlePlayPause_fst s, ?_⟩
  cases hi : s.playbackInstance <;> simp [handlePlayPause, hi] <;>
    cases hp : s.isPlaying <;> simp [hp]

/-- C10: from `currentIndex = -1` with a non-empty track list, `next()`
selects and starts the track at index 0 and `previous()` the one at
index `len - 1`; both computed indices lie inside `[0, len)`. -/
theorem c10_next_prev_from_unselected (len : Nat) (s : AppState)
    (h0 : 0 < len) (hc : s.currentTrackIndex = -1) :
    nextIdx len s.currentTrackIndex = 0 ∧
    prevIdx len s.currentTrackIndex = (len : Int) - 1 ∧
    (0 : Int) ≤ 0 ∧ (0 : Int) < (len : Int) ∧
    (0 : Int) ≤ (len : Int) - 1 ∧ (len : Int) - 1 < (len : Int) ∧
    (handleNext len s true).1.currentTrackIndex = 0 ∧
    (handleNext len s true).1.isPlaying = true ∧
    EngineCmd.load 0 true ∈ (handleNext len s true).2 ∧
    (handlePrevious len s true).1.currentTrackIndex = (len : Int) - 1 ∧
    (handlePrevious len s true).1.isPlaying = true ∧
    EngineCmd.load ((len : Int) - 1) true ∈ (handlePrevious len s true).2 := by
  have hn : nextIdx len s.currentTrackIndex = 0 := by
    unfold nextIdx
    rw [hc]
    split <;> omega
  have hp : prevIdx len s.currentTrackIndex = (len : Int) - 1 := by
    unfold prevIdx
    rw [hc, if_pos (by omega)]
  refine ⟨hn, hp, by omega, by omega, by omega, by omega, ?_, ?_, ?_, ?_, ?_, ?_⟩
  · unfold handleNext
    rw [if_neg (by omega), hn, playAudio_ok len s 0 true ⟨by omega, by omega, rfl⟩]
  · unfold handleNext
    rw [if_neg (by omega), hn, playAudio_ok len s 0 true ⟨by omega, by omega, rfl⟩]
  · unfold handleNext
    rw [if_neg (by omega), hn]
    exact playAudio_ok_load_mem len s 0 true ⟨by omega, by omega, rfl⟩
  · unfold handlePrevious
    rw [if_neg (by omega), hp,
      playAudio_ok len s ((len : Int) - 1) true ⟨by omega, by omega, rfl⟩]
  · unfold handlePrevious
    rw [if_neg (by omega), hp,
      playAudio_ok len s ((len : Int) - 1) true ⟨by omega, by omega, rfl⟩]
  · unfold handlePrevious
    rw [if_neg (by omega), hp]
    exact playAudio_ok_load_mem len s ((len : Int) - 1) true
      ⟨by omega, by omega, rfl⟩

/-- C10 (witness): with two tracks, from the initial state `next()`
starts track 0 and `previous()` starts track 1. -/
theorem c10_next_prev_witness :
    nextIdx 2 init.currentTrackIndex = 0 ∧
    prevIdx 2 init.currentTrackIndex = (2 : Int) - 1 ∧
    (0 : Int) ≤ 0 ∧ (0 : Int) < (2 : Int) ∧
    (0 : Int) ≤ (2 : Int) - 1 ∧ (2 : Int) - 1 < (2 : Int) ∧
    (handleNext 2 init true).1.currentTrackIndex = 0 ∧
    (handleNext 2 init true).1.isPlaying = true ∧
    EngineCmd.load 0 true ∈ (handleNext 2 init true).2 ∧
    (handlePrevious 2 init true).1.currentTrackIndex = (2 : Int) - 1 ∧
    (handlePrevious 2 init true).1.isPlaying = true ∧
    EngineCmd.load ((2 : Int) - 1) true ∈ (handlePrevious 2 init true).2 :=
  c10_next_prev_from_unselected 2 init (by decide) rfl

end SoundPlay
